import Mathlib

/-!
# Verification of `torchnlp/encoders/text/spacy_encoder.py`

A shallow embedding of the `SpacyEncoder` adapter: a thin wrapper that
plugs spaCy's tokenizer into the generic `StaticTokenizerEncoder`
framework, plus proofs of the observable contract of its constructor
and of its batch encoding path.

Python strings are Lean `String`, Python ints indexing the vocabulary
are Lean `Nat`, Python lists are Lean `List`, the per-instance state of
the adapter is an explicit structure threaded through the operations,
and raised exceptions are `Except` error values.
-/

/-- A spaCy token.  The batch path and the tokenizing closure only ever
consult the token's `text` attribute, so that is the only field kept. -/
structure Token where
  text : String
deriving Repr, DecidableEq

/-- A loaded spaCy language model (the result of `spacy.load(...)`).
Calling the model on a string (`tokenizer(s)`) yields its tokens. -/
structure SpacyModel where
  call : String → List Token

/-- The external library's `Language.pipe`: processes a batch of texts
with the same loaded model.  Per spaCy's contract, with all pipeline
stages beyond tokenization disabled, `pipe` yields for each text, in
order, exactly the tokens that calling the model on that text yields;
the `n_threads` hint is a throughput detail with no observable effect. -/
def SpacyModel.pipe (model : SpacyModel) (sequences : List String) : List (List Token) :=
  sequences.map model.call

/-- Embedding of `_tokenize(s, tokenizer)` from the source: the texts
of the tokens the tokenizer produces from `s`. -/
def listTokenize (s : String) (tokenizer : SpacyModel) : List String :=
  (tokenizer.call s).map Token.text

/-- The state of a constructed `SpacyEncoder` instance, as consulted by
`batch_encode`: the loaded model `self.spacy` plus the fields inherited
from `StaticTokenizerEncoder` (`self.stoi`, `self.unknown_index`,
`self.append_eos`, `self.eos_index`).  The vocabulary mapping `stoi` is
a Python dict from token text to index, embedded as an association
list with unique keys. -/
structure SpacyEncoder where
  spacy : SpacyModel
  stoi : List (String × Nat)
  unknown_index : Nat
  eos_index : Nat
  append_eos : Bool

/-- Total dictionary lookup `self.stoi.get(token, self.unknown_index)`
with the unknown index as default. -/
def SpacyEncoder.stoiGet (self : SpacyEncoder) (token : String) : Nat :=
  (self.stoi.lookup token).getD self.unknown_index

/-- The body of `batch_encode`'s loop for one element of the batch:
take the token texts, look each up in the vocabulary (falling back to
the unknown index), and append the eos index when `self.append_eos`. -/
def SpacyEncoder.encodeTokens (self : SpacyEncoder) (tokens : List Token) : List Nat :=
  let text := tokens.map Token.text
  let vector := text.map (fun token => self.stoiGet token)
  if self.append_eos then vector ++ [self.eos_index] else vector

/-- Embedding of `SpacyEncoder.batch_encode(self, sequences)`.  The
method reads `self` and assigns only to locals, so the embedding
threads the instance state through and returns it with the result
list (one encoded vector per piped text, in order). -/
def SpacyEncoder.batch_encode (self : SpacyEncoder) (sequences : List String) :
    SpacyEncoder × List (List Nat) :=
  (self, (self.spacy.pipe sequences).map (fun tokens => self.encodeTokens tokens))

/-- Modelled from the spec: the single-item encode path lives in the
base `StaticTokenizerEncoder`, which is not part of this fragment.  Per
the spec, `encode` applies the tokenizing function the adapter handed
to the base (here `_tokenize` closed over the loaded model), maps each
token text to its vocabulary index substituting the unknown index for
absent tokens, and appends the end-of-sequence index when the
append-end-marker flag is set. -/
def SpacyEncoder.encode (self : SpacyEncoder) (s : String) : List Nat :=
  let sequence := listTokenize s self.spacy
  let vector := sequence.map (fun token => self.stoiGet token)
  if self.append_eos then vector ++ [self.eos_index] else vector

/-- The Python exceptions the constructor can raise. -/
inductive ConstructError where
  /-- Python `TypeError(msg)`. -/
  | typeError (msg : String) : ConstructError
  /-- Python `ImportError` re-raised from `import spacy`. -/
  | importError : ConstructError
  /-- Python `ValueError(msg)`. -/
  | valueError (msg : String) : ConstructError
deriving Repr, DecidableEq

/-- The spec's error taxonomy classifies a raised exception as
`InvalidArgument` when the caller supplied a disallowed construction
parameter, an unsupported language code, or named a language model that
is not installed — realized in the code as `TypeError` and
`ValueError`. -/
def ConstructError.isInvalidArgument : ConstructError → Bool
  | .typeError _ => true
  | .importError => false
  | .valueError _ => true

/-- The spec's error taxonomy classifies a raised exception as
`DependencyMissing` when the required external tokenizer library is not
present in the runtime — realized in the code as the re-raised
`ImportError`. -/
def ConstructError.isDependencyMissing : ConstructError → Bool
  | .typeError _ => false
  | .importError => true
  | .valueError _ => false

/-- The runtime environment the constructor probes: whether
`import spacy` succeeds, and what `spacy.load(language, ...)` returns
(`none` embeds the `OSError` raised when the model is not installed). -/
structure Env where
  spacyAvailable : Bool
  load : String → Option SpacyModel

/-- The keyword arguments of the constructor that its own code
consults: presence of `tokenize` (only membership in `kwargs` is
checked before raising) and the optional `language` (read with
`kwargs.get('language', 'en')`).  All other arguments pass through to
the base class untouched. -/
structure Kwargs where
  tokenize : Option Unit
  language : Option String

/-- List `supported_languages` from the source. -/
def supported_languages : List String :=
  ["en", "de", "es", "pt", "fr", "it", "nl", "xx"]

/-- Python's `repr` of `supported_languages`, as interpolated by the
`%s` format in the unsupported-language error message. -/
def supportedLanguagesRepr : String :=
  "[\x27en\x27, \x27de\x27, \x27es\x27, \x27pt\x27, \x27fr\x27, \x27it\x27, \x27nl\x27, \x27xx\x27]"

/-- The message of the `ValueError` raised when `spacy.load` fails for
a supported language. -/
def languageNotFoundMessage (language : String) : String :=
  "Language \x27" ++ language ++ "\x27 not found. Install using spaCy: \x60python -m spacy download " ++ language ++ "\x60"

/-- The message of the `ValueError` raised for an unsupported language
code. -/
def noTokenizerMessage (language : String) : String :=
  "No tokenizer available for language \x27" ++ language ++ "\x27. Currently supported are " ++ supportedLanguagesRepr

/-- What a run of the constructor observably does: either the loaded
model stored into `self.spacy` (after which `super().__init__` is
invoked with the tokenizing closure) or the exception raised, together
with the lines printed on stdout along the way. -/
structure InitResult where
  result : Except ConstructError SpacyModel
  printed : List String

/-- Embedding of `SpacyEncoder.__init__`: reject a caller-supplied
`tokenize` keyword, import spaCy (printing installation guidance and
re-raising on failure), default the language to `'en'`, and for a
supported language load the model (mapping a load failure to a
`ValueError` naming the download command); an unsupported language
raises a `ValueError` listing the supported codes. -/
def SpacyEncoder.init (env : Env) (kw : Kwargs) : InitResult :=
  if kw.tokenize.isSome then
    { result := .error (.typeError "Encoder does not take keyword argument tokenize."),
      printed := [] }
  else if env.spacyAvailable = false then
    { result := .error .importError,
      printed := ["Please install spaCy: \x60pip install spacy\x60"] }
  else
    let language := kw.language.getD "en"
    if language ∈ supported_languages then
      match env.load language with
      | some model => { result := .ok model, printed := [] }
      | none => { result := .error (.valueError (languageNotFoundMessage language)),
                  printed := [] }
    else
      { result := .error (.valueError (noTokenizerMessage language)), printed := [] }

/-- String concatenation is associative (helper for decomposing error
messages). -/
theorem string_append_assoc (a b c : String) : a ++ b ++ c = a ++ (b ++ c) :=
  String.ext (by simp [String.data_append, List.append_assoc])

/-- A concrete model for witness instances: every string is one token
consisting of the whole string. -/
def toyModel : SpacyModel := ⟨fun s => [⟨s⟩]⟩

/-- A concrete adapter instance with the end-marker flag set: the
vocabulary maps "a" to 5, the unknown index is 1, the eos index is 2. -/
def toyEncoder : SpacyEncoder :=
  { spacy := toyModel, stoi := [("a", 5)], unknown_index := 1,
    eos_index := 2, append_eos := true }

/-- The same concrete adapter with the end-marker flag unset. -/
def toyEncoderNoEos : SpacyEncoder :=
  { spacy := toyModel, stoi := [("a", 5)], unknown_index := 1,
    eos_index := 2, append_eos := false }

/-- Shared helper: the batch path computes, in order, exactly the
per-string single-item encoding of each input. -/
theorem batch_encode_snd_eq_map (e : SpacyEncoder) (sequences : List String) :
    (e.batch_encode sequences).2 = sequences.map e.encode := by
  show (sequences.map e.spacy.call).map _ = _
  rw [List.map_map]
  rfl

/-- Claim C1: for every list of input strings on a successfully
constructed adapter, `batch_encode` produces exactly the sequence of
encoded vectors obtained by applying the single-item encode path to
each string in turn; in particular, for every string `s`,
`batch_encode [s]` is the one-element list containing `encode s`. -/
theorem batch_encode_refines_encode (e : SpacyEncoder) (sequences : List String) :
    (e.batch_encode sequences).2 = sequences.map e.encode ∧
    ∀ s : String, (e.batch_encode [s]).2 = [e.encode s] :=
  ⟨batch_encode_snd_eq_map e sequences, fun s => batch_encode_snd_eq_map e [s]⟩

/-- Claim C2: for every environment and every combination of other
construction arguments, supplying the `tokenize` keyword makes the
constructor raise the disallowed-parameter error (classified
`InvalidArgument` by the spec taxonomy), with nothing printed and
construction never proceeding past the check. -/
theorem init_rejects_tokenize_kwarg (env : Env) (kw : Kwargs)
    (h : kw.tokenize.isSome = true) :
    (SpacyEncoder.init env kw).result =
      .error (.typeError "Encoder does not take keyword argument tokenize.") ∧
    (∃ err, (SpacyEncoder.init env kw).result = .error err ∧
      err.isInvalidArgument = true) ∧
    (SpacyEncoder.init env kw).printed = [] := by
  have hres : (SpacyEncoder.init env kw).result =
      .error (.typeError "Encoder does not take keyword argument tokenize.") := by
    simp [SpacyEncoder.init, h]
  have hpr : (SpacyEncoder.init env kw).printed = [] := by
    simp [SpacyEncoder.init, h]
  exact ⟨hres, ⟨_, hres, rfl⟩, hpr⟩

/-- Witness for claim C2 at a concrete environment and argument set. -/
theorem init_rejects_tokenize_kwarg_witness :
    (SpacyEncoder.init ⟨true, fun _ => none⟩ ⟨some (), none⟩).result =
      .error (.typeError "Encoder does not take keyword argument tokenize.") :=
  (init_rejects_tokenize_kwarg ⟨true, fun _ => none⟩ ⟨some (), none⟩ (by decide)).1

/-- Claim C4: when the spaCy library is absent from the runtime (and no
`tokenize` keyword was supplied), construction fails with the
re-raised import error (classified `DependencyMissing` by the spec
taxonomy), and the installation-guidance line is printed before the error
propagates. -/
theorem init_missing_spacy (env : Env) (kw : Kwargs)
    (ht : kw.tokenize = none) (ha : env.spacyAvailable = false) :
    (SpacyEncoder.init env kw).result = .error .importError ∧
    ConstructError.importError.isDependencyMissing = true ∧
    (SpacyEncoder.init env kw).printed =
      ["Please install spaCy: \x60pip install spacy\x60"] := by
  refine ⟨?_, rfl, ?_⟩ <;> simp [SpacyEncoder.init, ht, ha]

/-- Witness for claim C4 at a concrete environment without spaCy. -/
theorem init_missing_spacy_witness :
    (SpacyEncoder.init ⟨false, fun _ => none⟩ ⟨none, none⟩).result =
      .error .importError ∧
    (SpacyEncoder.init ⟨false, fun _ => none⟩ ⟨none, none⟩).printed =
      ["Please install spaCy: \x60pip install spacy\x60"] :=
  ⟨(init_missing_spacy ⟨false, fun _ => none⟩ ⟨none, none⟩ rfl rfl).1,
   (init_missing_spacy ⟨false, fun _ => none⟩ ⟨none, none⟩ rfl rfl).2.2⟩

/-- Claim C9: `batch_encode` never mutates the adapter's state: the
instance state after any call — the vocabulary mapping, the unknown
index, the end-of-sequence index, the append-end-marker flag and the
tokenizer handle — is the state before the call. -/
theorem batch_encode_state_frame (e : SpacyEncoder) (sequences : List String) :
    (e.batch_encode sequences).1 = e ∧
    (e.batch_encode sequences).1.stoi = e.stoi ∧
    (e.batch_encode sequences).1.unknown_index = e.unknown_index ∧
    (e.batch_encode sequences).1.eos_index = e.eos_index ∧
    (e.batch_encode sequences).1.append_eos = e.append_eos ∧
    (e.batch_encode sequences).1.spacy = e.spacy :=
  ⟨rfl, rfl, rfl, rfl, rfl, rfl⟩

/-- Claim C10: the constructor's checks run in a fixed order: a
supplied `tokenize` keyword fails with the disallowed-parameter
`TypeError` even when spaCy is absent, and an unsupported language code
combined with an absent spaCy library fails with the import error, not
the unsupported-language error. -/
theorem init_check_order (env : Env) (kw : Kwargs) :
    (kw.tokenize.isSome = true →
      (SpacyEncoder.init env kw).result =
        .error (.typeError "Encoder does not take keyword argument tokenize.")) ∧
    (kw.tokenize = none → env.spacyAvailable = false →
      kw.language.getD "en" ∉ supported_languages →
      (SpacyEncoder.init env kw).result = .error .importError) := by
  constructor
  · intro h
    simp [SpacyEncoder.init, h]
  · intro ht ha _
    simp [SpacyEncoder.init, ht, ha]

/-- Witness for claim C10: both orderings at concrete inputs with
spaCy absent and an unsupported language code. -/
theorem init_check_order_witness :
    (SpacyEncoder.init ⟨false, fun _ => none⟩ ⟨some (), some "zz"⟩).result =
      .error (.typeError "Encoder does not take keyword argument tokenize.") ∧
    (SpacyEncoder.init ⟨false, fun _ => none⟩ ⟨none, some "zz"⟩).result =
      .error .importError :=
  ⟨(init_check_order ⟨false, fun _ => none⟩ ⟨some (), some "zz"⟩).1 (by decide),
   (init_check_order ⟨false, fun _ => none⟩ ⟨none, some "zz"⟩).2 rfl rfl (by decide)⟩

/-- Claim C3: the supported language set is exactly the 8 codes, and
with spaCy available (and no `tokenize` keyword), any language code
outside it makes construction fail with a `ValueError` (spec-classified
`InvalidArgument`) whose message identifies the offending code and ends
with the printed list of supported codes, each code occurring in it. -/
theorem init_unsupported_language (env : Env) (kw : Kwargs)
    (ha : env.spacyAvailable = true) (ht : kw.tokenize = none)
    (hl : kw.language.getD "en" ∉ supported_languages) :
    supported_languages = ["en", "de", "es", "pt", "fr", "it", "nl", "xx"] ∧
    (SpacyEncoder.init env kw).result =
      .error (.valueError (noTokenizerMessage (kw.language.getD "en"))) ∧
    (ConstructError.valueError
      (noTokenizerMessage (kw.language.getD "en"))).isInvalidArgument = true ∧
    (∃ q, noTokenizerMessage (kw.language.getD "en") =
      "No tokenizer available for language \x27" ++ kw.language.getD "en" ++ q) ∧
    (∃ p, noTokenizerMessage (kw.language.getD "en") = p ++ supportedLanguagesRepr) ∧
    (∀ c ∈ supported_languages, ∃ p r, supportedLanguagesRepr = p ++ c ++ r) := by
  refine ⟨rfl, ?_, rfl, ?_, ?_, ?_⟩
  · simp [SpacyEncoder.init, ha, ht, hl]
  · exact ⟨"\x27. Currently supported are " ++ supportedLanguagesRepr, by
      simp [noTokenizerMessage, string_append_assoc]⟩
  · exact ⟨"No tokenizer available for language \x27" ++ kw.language.getD "en" ++
      "\x27. Currently supported are ", rfl⟩
  · intro c hc
    rw [supported_languages] at hc
    fin_cases hc
    · exact ⟨"[\x27", "\x27, \x27de\x27, \x27es\x27, \x27pt\x27, \x27fr\x27, \x27it\x27, \x27nl\x27, \x27xx\x27]", by decide⟩
    · exact ⟨"[\x27en\x27, \x27", "\x27, \x27es\x27, \x27pt\x27, \x27fr\x27, \x27it\x27, \x27nl\x27, \x27xx\x27]", by decide⟩
    · exact ⟨"[\x27en\x27, \x27de\x27, \x27", "\x27, \x27pt\x27, \x27fr\x27, \x27it\x27, \x27nl\x27, \x27xx\x27]", by decide⟩
    · exact ⟨"[\x27en\x27, \x27de\x27, \x27es\x27, \x27", "\x27, \x27fr\x27, \x27it\x27, \x27nl\x27, \x27xx\x27]", by decide⟩
    · exact ⟨"[\x27en\x27, \x27de\x27, \x27es\x27, \x27pt\x27, \x27", "\x27, \x27it\x27, \x27nl\x27, \x27xx\x27]", by decide⟩
    · exact ⟨"[\x27en\x27, \x27de\x27, \x27es\x27, \x27pt\x27, \x27fr\x27, \x27", "\x27, \x27nl\x27, \x27xx\x27]", by decide⟩
    · exact ⟨"[\x27en\x27, \x27de\x27, \x27es\x27, \x27pt\x27, \x27fr\x27, \x27it\x27, \x27", "\x27, \x27xx\x27]", by decide⟩
    · exact ⟨"[\x27en\x27, \x27de\x27, \x27es\x27, \x27pt\x27, \x27fr\x27, \x27it\x27, \x27nl\x27, \x27", "\x27]", by decide⟩

/-- Witness for claim C3 at a concrete unsupported language code. -/
theorem init_unsupported_language_witness :
    (SpacyEncoder.init ⟨true, fun _ => none⟩ ⟨none, some "zz"⟩).result =
      .error (.valueError (noTokenizerMessage "zz")) :=
  (init_unsupported_language ⟨true, fun _ => none⟩ ⟨none, some "zz"⟩
    rfl rfl (by decide)).2.1

/-- Claim C5: with spaCy available and a supported language code whose
model is not installed (the load raises `OSError`), construction fails
with a `ValueError` (spec-classified `InvalidArgument`) whose message
names the language and gives the model-installation command. -/
theorem init_model_not_installed (env : Env) (kw : Kwargs)
    (ht : kw.tokenize = none) (ha : env.spacyAvailable = true)
    (hsup : kw.language.getD "en" ∈ supported_languages)
    (hload : env.load (kw.language.getD "en") = none) :
    (SpacyEncoder.init env kw).result =
      .error (.valueError (languageNotFoundMessage (kw.language.getD "en"))) ∧
    (ConstructError.valueError
      (languageNotFoundMessage (kw.language.getD "en"))).isInvalidArgument = true ∧
    languageNotFoundMessage (kw.language.getD "en") =
      "Language \x27" ++ kw.language.getD "en" ++
        ("\x27 not found. Install using spaCy: \x60" ++
          ("python -m spacy download " ++ kw.language.getD "en") ++ "\x60") := by
  refine ⟨?_, rfl, ?_⟩
  · simp [SpacyEncoder.init, ht, ha, hsup, hload]
  · have hB : ("\x27 not found. Install using spaCy: \x60python -m spacy download " : String) =
        "\x27 not found. Install using spaCy: \x60" ++ "python -m spacy download " := by
      decide
    simp only [languageNotFoundMessage, hB, string_append_assoc]

/-- Witness for claim C5 at a concrete supported language with no
installed model. -/
theorem init_model_not_installed_witness :
    (SpacyEncoder.init ⟨true, fun _ => none⟩ ⟨none, some "de"⟩).result =
      .error (.valueError (languageNotFoundMessage "de")) :=
  (init_model_not_installed ⟨true, fun _ => none⟩ ⟨none, some "de"⟩
    rfl rfl (by decide) rfl).1

/-- Claim C6: `batch_encode` returns exactly one encoded vector per
input string, in input order: the output length equals the input
length and the i-th output vector is the encoding of the i-th input
string. -/
theorem batch_encode_preserves_order (e : SpacyEncoder) (sequences : List String) :
    (e.batch_encode sequences).2.length = sequences.length ∧
    ∀ (i : Nat) (h1 : i < sequences.length)
      (h2 : i < (e.batch_encode sequences).2.length),
      (e.batch_encode sequences).2[i] = e.encode sequences[i] := by
  have h := batch_encode_snd_eq_map e sequences
  constructor
  · rw [h, List.length_map]
  · intro i h1 h2
    simp only [h, List.getElem_map]

/-- Witness for claim C6 on a concrete two-element batch. -/
theorem batch_encode_preserves_order_witness :
    (toyEncoder.batch_encode ["a", "b"]).2.length = 2 ∧
    (toyEncoder.batch_encode ["a", "b"]).2.get ⟨0, by decide⟩ =
      toyEncoder.encode "a" :=
  ⟨(batch_encode_preserves_order toyEncoder ["a", "b"]).1,
   (batch_encode_preserves_order toyEncoder ["a", "b"]).2 0 (by decide) (by decide)⟩

/-- Claim C7: the per-token vocabulary lookup in the batch path is
total: a token whose text is absent from the vocabulary mapping is
encoded as the designated unknown index (at its position in the output
vector), and the lookup never fails. -/
theorem batch_encode_unknown_total (e : SpacyEncoder) (sequences : List String)
    (j i : Nat) (hj : j < sequences.length)
    (hi : i < (e.spacy.call sequences[j]).length)
    (habs : e.stoi.lookup ((e.spacy.call sequences[j])[i]).text = none) :
    e.stoiGet ((e.spacy.call sequences[j])[i]).text = e.unknown_index ∧
    ∃ v, ((e.batch_encode sequences).2)[j]? = some v ∧
      v[i]? = some e.unknown_index := by
  have hsg : e.stoiGet ((e.spacy.call sequences[j])[i]).text = e.unknown_index := by
    simp [SpacyEncoder.stoiGet, habs]
  refine ⟨hsg, e.encode sequences[j], ?_, ?_⟩
  · rw [batch_encode_snd_eq_map, List.getElem?_map, List.getElem?_eq_getElem hj]
    rfl
  · have hcomp : (listTokenize sequences[j] e.spacy).map (fun t => e.stoiGet t) =
        (e.spacy.call sequences[j]).map (fun tok => e.stoiGet tok.text) := by
      simp only [listTokenize, List.map_map]
      rfl
    have hM : ((listTokenize sequences[j] e.spacy).map (fun t => e.stoiGet t))[i]? =
        some e.unknown_index := by
      rw [hcomp, List.getElem?_map, List.getElem?_eq_getElem hi]
      simp [hsg]
    have hlen : i < ((listTokenize sequences[j] e.spacy).map (fun t => e.stoiGet t)).length := by
      simpa [listTokenize] using hi
    show (e.encode sequences[j])[i]? = some e.unknown_index
    cases happ : e.append_eos
    · have henc : e.encode sequences[j] =
          (listTokenize sequences[j] e.spacy).map (fun t => e.stoiGet t) := by
        simp [SpacyEncoder.encode, happ]
      rw [henc]
      exact hM
    · have henc : e.encode sequences[j] =
          (listTokenize sequences[j] e.spacy).map (fun t => e.stoiGet t) ++ [e.eos_index] := by
        simp [SpacyEncoder.encode, happ]
      rw [henc, List.getElem?_append, if_pos hlen]
      exact hM

/-- Witness for claim C7: a token outside the toy vocabulary maps to
the unknown index. -/
theorem batch_encode_unknown_total_witness :
    ∃ v, ((toyEncoder.batch_encode ["z"]).2)[0]? = some v ∧
      v[0]? = some toyEncoder.unknown_index :=
  (batch_encode_unknown_total toyEncoder ["z"] 0 0 (by decide) (by decide)
    (by decide)).2

/-- Claim C8: with the append-end-marker flag set, every vector
returned by `batch_encode` ends with the configured end-of-sequence
index; with the flag unset, no index is appended and each vector's
length equals the number of tokens produced for that input. -/
theorem batch_encode_eos_suffix (e : SpacyEncoder) (sequences : List String) :
    (e.append_eos = true →
      ∀ v ∈ (e.batch_encode sequences).2, v.getLast? = some e.eos_index) ∧
    (e.append_eos = false →
      ∀ (i : Nat) (h1 : i < sequences.length)
        (h2 : i < (e.batch_encode sequences).2.length),
        (e.batch_encode sequences).2[i].length = (e.spacy.call sequences[i]).length) := by
  constructor
  · intro happ v hv
    rw [batch_encode_snd_eq_map] at hv
    rcases List.mem_map.1 hv with ⟨s, _, rfl⟩
    simp [SpacyEncoder.encode, happ, List.getLast?_concat]
  · intro happ i h1 h2
    have h := batch_encode_snd_eq_map e sequences
    simp only [h, List.getElem_map]
    simp [SpacyEncoder.encode, happ, listTokenize]

/-- Witness for claim C8: with the flag set the concrete vector ends
with the eos index; with it unset the vector length is the token
count. -/
theorem batch_encode_eos_suffix_witness :
    ((toyEncoder.batch_encode ["a"]).2.getD 0 []).getLast? =
      some toyEncoder.eos_index ∧
    ((toyEncoderNoEos.batch_encode ["a"]).2.get ⟨0, by decide⟩).length =
      (toyEncoderNoEos.spacy.call "a").length :=
  ⟨(batch_encode_eos_suffix toyEncoder ["a"]).1 rfl _ (by decide),
   (batch_encode_eos_suffix toyEncoderNoEos ["a"]).2 rfl 0 (by decide) (by decide)⟩
